import Mathlib

/-
Verification development for the 3D model viewer component
(src/unnamed/part_000, a React component built on three.js).

The embedding below is a shallow model of the component's asset-loading
pipeline.  `object.traverse` visits the sub-meshes of the loaded node, and
every operation of the component (vertex/face counting, material
assignment, bounding-box computation) depends only on the collection of
sub-meshes visited, so a loaded node is modelled by the list of its
sub-meshes in traversal order together with its root position.  Geometry
coordinates are rationals; the camera pose, whose distance formula uses
Math.sin, lives over the reals.  The three network fetches (texture,
material, geometry) are modelled by their outcomes (success or failure),
and the nested success/error callbacks of the source become one function
from outcomes to the terminal component state.
-/

namespace ModelViewer

/-- A 3D point, with rational coordinates. -/
abbrev Vec3 := ℚ × ℚ × ℚ

/-- A sub-mesh's geometry buffer: the optional 'position' vertex attribute
(modelled as the list of vertex positions, so `position.count` is the list
length) and the optional index buffer, of which only the element count
matters to the component. -/
structure BufferGeometry where
  position : Option (List Vec3)
  index : Option ℕ
  deriving DecidableEq

/-- One sub-mesh (a `THREE.Mesh` reached by `object.traverse`): its
geometry and its material reference.  Material references are modelled by
numeric identities; two sub-meshes share a material object exactly when
they carry the same identity. -/
structure Mesh where
  geometry : BufferGeometry
  material : Option ℕ
  deriving DecidableEq

/-- The loaded scene-graph node: its sub-meshes in traversal order, and the
root position (mutated by `object.position.sub(center)`). -/
structure Object3D where
  meshes : List Mesh
  position : Vec3
  deriving DecidableEq

/-- Componentwise minimum. -/
def vmin (a b : Vec3) : Vec3 := (min a.1 b.1, min a.2.1 b.2.1, min a.2.2 b.2.2)

/-- Componentwise maximum. -/
def vmax (a b : Vec3) : Vec3 := (max a.1 b.1, max a.2.1 b.2.1, max a.2.2 b.2.2)

/-- Componentwise addition. -/
def vadd (a b : Vec3) : Vec3 := (a.1 + b.1, a.2.1 + b.2.1, a.2.2 + b.2.2)

/-- Componentwise subtraction. -/
def vsub (a b : Vec3) : Vec3 := (a.1 - b.1, a.2.1 - b.2.1, a.2.2 - b.2.2)

/-- An axis-aligned bounding box (`THREE.Box3`) that is not empty. -/
structure Box3 where
  min : Vec3
  max : Vec3
  deriving DecidableEq

/-- Expand a box to contain one more point. -/
def expandBox (b : Box3) (q : Vec3) : Box3 := ⟨vmin b.min q, vmax b.max q⟩

/-- The box enclosing a list of points; `none` models THREE's empty box
(no geometry at all). -/
def setFromPoints : List Vec3 → Option Box3
  | [] => none
  | p :: ps => some (ps.foldl expandBox ⟨p, p⟩)

/-- All vertex positions contributed by the node's sub-meshes. -/
def geometryPoints (o : Object3D) : List Vec3 :=
  (o.meshes.map fun m => m.geometry.position.getD []).flatten

/-- `new THREE.Box3().setFromObject(object)`: the box over the node's
geometry in world space, so the node's root position shifts the box. -/
def boxOfObject (o : Object3D) : Option Box3 :=
  (setFromPoints (geometryPoints o)).map fun b =>
    ⟨vadd b.min o.position, vadd b.max o.position⟩

/-- `box.getCenter(...)`: the midpoint, or the origin for an empty box. -/
def getCenter : Option Box3 → Vec3
  | none => (0, 0, 0)
  | some b =>
    ((b.min.1 + b.max.1) / 2, (b.min.2.1 + b.max.2.1) / 2, (b.min.2.2 + b.max.2.2) / 2)

/-- `box.getSize(...)`: the extents `max - min`, or zero for an empty box. -/
def getSize : Option Box3 → Vec3
  | none => (0, 0, 0)
  | some b => vsub b.max b.min

/-- The extents of a node's bounding box. -/
def sizeOfObject (o : Object3D) : Vec3 := getSize (boxOfObject o)

/-- `countVertices` (lines 425-441): sum over every sub-mesh of the vertex
count of its 'position' attribute, when that attribute exists. -/
def countVertices (o : Object3D) : ℕ :=
  (o.meshes.map fun m => (m.geometry.position.getD []).length).sum

/-- One sub-mesh's contribution in `countFaces` (lines 444-465):
`index.count / 3` when an index buffer exists, else `position.count / 3`,
else nothing.  JavaScript `/` is exact division, so the contribution is a
rational, not an integer. -/
def faceContribution (m : Mesh) : ℚ :=
  match m.geometry.index with
  | some n => (n : ℚ) / 3
  | none =>
    match m.geometry.position with
    | some ps => (ps.length : ℚ) / 3
    | none => 0

/-- `countFaces` (lines 444-465): sum of the sub-mesh contributions. -/
def countFaces (o : Object3D) : ℚ := (o.meshes.map faceContribution).sum

/-- The count the claim describes for one sub-mesh: the same division
truncated to an integer (floor). -/
def faceContributionTruncated (m : Mesh) : ℕ :=
  match m.geometry.index with
  | some n => n / 3
  | none =>
    match m.geometry.position with
    | some ps => ps.length / 3
    | none => 0

/-- The face count the claim describes: a sum of truncated divisions,
always a non-negative integer. -/
def countFacesTruncated (o : Object3D) : ℕ :=
  (o.meshes.map faceContributionTruncated).sum

/-- The relevant count a sub-mesh's face contribution divides by 3. -/
def faceBasis (m : Mesh) : ℕ :=
  match m.geometry.index with
  | some n => n
  | none =>
    match m.geometry.position with
    | some ps => ps.length
    | none => 0

/-- The texture-material traversal (lines 169-183 and 278-290): each visit
constructs `new THREE.MeshPhongMaterial({map: texture, ...})`, a reference
distinct from every other material reference, and assigns it to the
sub-mesh.  Freshness is modelled by numbering the sub-meshes. -/
def assignFresh : ℕ → List Mesh → List Mesh
  | _, [] => []
  | i, m :: ms => { m with material := some i } :: assignFresh (i + 1) ms

/-- Apply the texture material to every sub-mesh of the node. -/
def applyTextureMaterial (o : Object3D) : Object3D :=
  { o with meshes := assignFresh 0 o.meshes }

/-- The material `Set` built by traversal (lines 205-210 and 360-365):
`if (child.material) materialCount.add(child.material)`, then its size —
the number of distinct material references across sub-meshes. -/
def materialCountOf (o : Object3D) : ℕ :=
  ((o.meshes.filterMap Mesh.material).dedup).length

/-- The metadata handed to `setModelMetadata`.  `faces` is rational
because `countFaces` divides exactly. -/
structure Metadata where
  vertices : ℕ
  faces : ℚ
  materials : ℕ
  dimensions : Vec3
  deriving DecidableEq

/-- What the component adds to the scene: the fixed setup content from
`init` (lines 47-119) and the load-time additions (model node, bounding-box
helper, wireframe cube). -/
inductive SceneItem where
  | gridHelper
  | axesHelper
  | ambientLight
  | directionalLight
  | pointLight
  | testCube
  | model (o : Object3D)
  | boxHelper (b : Option Box3)
  | wireframe (size : Vec3) (pos : Vec3)
  deriving DecidableEq

/-- The scene contents right after `init` finishes its setup (lines
52-119): grid helper, axes helper, the three lights, and the red test
cube. -/
def initScene : List SceneItem :=
  [.gridHelper, .axesHelper, .ambientLight, .directionalLight, .pointLight, .testCube]

/-- The component state the pipeline mutates: the `loading`, `error` and
`modelMetadata` React states, and the scene contents. -/
structure CoreState where
  loading : Bool
  error : Option String
  metadata : Option Metadata
  scene : List SceneItem
  deriving DecidableEq

/-- The state when the loading process starts: `loading` true, no error,
no metadata, the setup scene. -/
def startState : CoreState :=
  { loading := true, error := none, metadata := none, scene := initScene }

/-- The outcome of the three network fetches of one run: whether the
texture, the material library and the geometry file load successfully
(for the geometry: whether any attempt to fetch it would succeed). -/
structure RunOutcome where
  textureOk : Bool
  mtlOk : Bool
  objOk : Bool
  deriving DecidableEq

/-- Error message of the primary-path OBJ error callback (line 251). -/
def objLoadErrorMsg : String :=
  "Failed to load 3D model. Please check if model files exist in the correct location."

/-- Error message of the fallback OBJ error callback (line 310). -/
def fallbackObjErrorMsg : String :=
  "Failed to load model with or without materials."

/-- Error message of the OBJ error callback on the texture-failure branch
(line 385). -/
def noTextureObjErrorMsg : String :=
  "Failed to load 3D model without texture."

/-- Error message of the MTL error callback on the texture-failure branch
(line 395). -/
def mtlAndTextureErrorMsg : String :=
  "Failed to load materials and texture."

/-- Error message of the `init` catch block (line 419). -/
def initErrorMsg : String :=
  "Failed to initialize 3D viewer"

/-- Every error message the component can store in its `error` state. -/
def failureMessages : List String :=
  [objLoadErrorMsg, fallbackObjErrorMsg, noTextureObjErrorMsg,
   mtlAndTextureErrorMsg, initErrorMsg]

/-- A terminal error callback: `setError(msg); setLoading(false)`. -/
def setFailure (msg : String) (s : CoreState) : CoreState :=
  { s with error := some msg, loading := false }

/-- The main OBJ success callback (lines 148-242): snapshot the bounding
box, center and size; translate the node by `-center`; give every sub-mesh
a fresh texture material; add the node, the box helper and the wireframe
cube to the scene; publish the metadata (material count recomputed over
the node after assignment); stop loading.  (The camera pose it also sets
is modelled separately by `cameraAfter`.) -/
def mainObjSuccess (obj : Object3D) (s : CoreState) : CoreState :=
  let box := boxOfObject obj
  let center := getCenter box
  let size := getSize box
  let moved : Object3D := { obj with position := vsub obj.position center }
  let textured := applyTextureMaterial moved
  let md : Metadata :=
    { vertices := countVertices textured, faces := countFaces textured,
      materials := materialCountOf textured, dimensions := size }
  { s with
    scene := s.scene ++ [.model textured, .boxHelper box, .wireframe size textured.position],
    metadata := some md, loading := false }

/-- The fallback OBJ success callback after an MTL failure (lines 267-305):
center, texture every sub-mesh, add the node, publish metadata with the
material count hardcoded to 1, stop loading.  No helpers are added and the
camera is not touched. -/
def fallbackObjSuccess (obj : Object3D) (s : CoreState) : CoreState :=
  let box := boxOfObject obj
  let center := getCenter box
  let size := getSize box
  let moved : Object3D := { obj with position := vsub obj.position center }
  let textured := applyTextureMaterial moved
  let md : Metadata :=
    { vertices := countVertices textured, faces := countFaces textured,
      materials := 1, dimensions := size }
  { s with scene := s.scene ++ [.model textured], metadata := some md, loading := false }

/-- The OBJ success callback on the texture-failure branch (lines 346-378):
center, add the node with its loaded materials untouched, publish metadata
with the material count over those materials, stop loading.  No camera
adjustment. -/
def noTextureObjSuccess (obj : Object3D) (s : CoreState) : CoreState :=
  let box := boxOfObject obj
  let center := getCenter box
  let size := getSize box
  let moved : Object3D := { obj with position := vsub obj.position center }
  let md : Metadata :=
    { vertices := countVertices moved, faces := countFaces moved,
      materials := materialCountOf moved, dimensions := size }
  { s with scene := s.scene ++ [.model moved], metadata := some md, loading := false }

/-- The whole load pipeline (lines 129-400), as one function from fetch
outcomes and the geometry file's content to the terminal state.  The
nesting mirrors the source: everything hangs off the texture loader's
success and error callbacks; on the texture-failure branch an MTL failure
terminates at once, with no geometry attempt. -/
def runPipeline (r : RunOutcome) (obj : Object3D) : CoreState :=
  if r.textureOk then
    if r.mtlOk then
      if r.objOk then mainObjSuccess obj startState
      else setFailure objLoadErrorMsg startState
    else
      if r.objOk then fallbackObjSuccess obj startState
      else setFailure fallbackObjErrorMsg startState
  else
    if r.mtlOk then
      if r.objOk then noTextureObjSuccess obj startState
      else setFailure noTextureObjErrorMsg startState
    else setFailure mtlAndTextureErrorMsg startState

/-- The `init` catch block (lines 416-421), applied to whatever partial
state setup reached: `setError("Failed to initialize 3D viewer");
setLoading(false)`. -/
def initCatch (s : CoreState) : CoreState := setFailure initErrorMsg s

/-- The spec's LoadState abstraction over the component's three state
variables. -/
inductive LoadState where
  | Loading
  | Ready (md : Metadata)
  | Failed (message : String)
  deriving DecidableEq

/-- Read the LoadState off a component state: an error means Failed,
otherwise published metadata with loading finished means Ready. -/
def loadStateOf (s : CoreState) : LoadState :=
  match s.error with
  | some m => .Failed m
  | none =>
    if s.loading then .Loading
    else
      match s.metadata with
      | some md => .Ready md
      | none => .Loading

/-- The start and completion events of the three fetches. -/
inductive FetchEvent where
  | startTexture
  | doneTexture (ok : Bool)
  | startMtl
  | doneMtl (ok : Bool)
  | startObj
  | doneObj (ok : Bool)
  deriving DecidableEq

/-- The fetch events of a run in the order the source produces them: the
texture fetch starts first and the MTL fetch is issued only from the
texture loader's callbacks (lines 129-400); the OBJ fetch is issued from
the MTL callbacks, except that on the texture-failure branch an MTL
failure issues no OBJ fetch at all (lines 391-397). -/
def runTrace (r : RunOutcome) : List FetchEvent :=
  .startTexture :: .doneTexture r.textureOk :: .startMtl :: .doneMtl r.mtlOk ::
    (if r.mtlOk then [.startObj, .doneObj r.objOk]
     else if r.textureOk then [.startObj, .doneObj r.objOk]
     else [])

/-- The material count of the published metadata, when metadata exists. -/
def metaMaterials (s : CoreState) : Option ℕ := s.metadata.map fun md => md.materials

/-- The face count of the published metadata, when metadata exists. -/
def metaFaces (s : CoreState) : Option ℚ := s.metadata.map fun md => md.faces

/-- The dimensions of the published metadata, when metadata exists. -/
def metaDims (s : CoreState) : Option Vec3 := s.metadata.map fun md => md.dimensions

/-- The model nodes present in a scene. -/
def sceneModels (s : CoreState) : List Object3D :=
  s.scene.filterMap fun it =>
    match it with
    | .model o => some o
    | _ => none

/-- Whether a scene item is part of the default content the claim lists:
background/grid/axis helpers and lights. -/
def isDefaultContent : SceneItem → Bool
  | .gridHelper => true
  | .axesHelper => true
  | .ambientLight => true
  | .directionalLight => true
  | .pointLight => true
  | _ => false

/-- Whether a scene holds only the default content of the claim. -/
def defaultContentOnly (s : List SceneItem) : Bool := s.all isDefaultContent

/-- The camera state the component manipulates: position, look-at target,
clip planes, vertical field of view in degrees, and whether
`updateProjectionMatrix` has run since setup. -/
structure Camera where
  position : ℝ × ℝ × ℝ
  target : ℝ × ℝ × ℝ
  near : ℝ
  far : ℝ
  fovDeg : ℝ
  projectionUpdated : Bool

/-- The camera as `init` creates it (lines 75-81, 105): fov 75, near 0.1,
far 1000, position (0, 2, 5), controls target at the origin. -/
noncomputable def initialCamera : Camera :=
  { position := (0, 2, 5), target := (0, 0, 0), near := 0.1, far := 1000,
    fovDeg := 75, projectionUpdated := false }

/-- `const fov = camera.fov * (Math.PI / 180)` (line 226) with fov 75. -/
noncomputable def fovRad : ℝ := 75 * (Real.pi / 180)

/-- The camera distance of lines 227-228:
`Math.abs(maxDim / Math.sin(fov / 2))` then `*= 2`. -/
noncomputable def cameraDistance (maxDim fov : ℝ) : ℝ :=
  |maxDim / Real.sin (fov / 2)| * 2

/-- The camera pose set by the auto-framing block (lines 224-236):
`maxDim = Math.max(size.x, size.y, size.z)`, position
`(0, maxDim / 2, cameraZ)`, look-at the origin, near 0.1, far 1000,
projection matrix updated. -/
noncomputable def frameCamera (size : Vec3) : Camera :=
  let maxDim : ℚ := max size.1 (max size.2.1 size.2.2)
  { position := (0, (maxDim : ℝ) / 2, cameraDistance (maxDim : ℝ) fovRad),
    target := (0, 0, 0), near := 0.1, far := 1000, fovDeg := 75,
    projectionUpdated := true }

/-- The camera after a run terminates: only the main success callback
(texture, materials and geometry all loaded) runs the auto-framing block;
every other branch leaves the camera as `init` made it. -/
noncomputable def cameraAfter (r : RunOutcome) (obj : Object3D) : Camera :=
  if r.textureOk && r.mtlOk && r.objOk then frameCamera (sizeOfObject obj)
  else initialCamera

/-- The camera pose the claim describes for a load of the given extents:
position `(0, maxDim / 2, (maxDim / sin(fov / 2)) * 2)`, look-at the
origin, near 0.1, far 1000, and an updated projection matrix. -/
noncomputable def framesPerClaim (c : Camera) (size : Vec3) : Prop :=
  c.position =
      (0, ((max size.1 (max size.2.1 size.2.2) : ℚ) : ℝ) / 2,
        ((max size.1 (max size.2.1 size.2.2) : ℚ) : ℝ) / Real.sin (fovRad / 2) * 2) ∧
    c.target = (0, 0, 0) ∧ c.near = 0.1 ∧ c.far = 1000 ∧ c.projectionUpdated = true

/-- A sub-mesh with the given vertex positions, index count and material. -/
def mkMesh (pts : List Vec3) (idx : Option ℕ) (mat : Option ℕ) : Mesh :=
  ⟨⟨some pts, idx⟩, mat⟩

/-- A concrete single-mesh node used as a generic loaded model. -/
def sampleObj : Object3D :=
  ⟨[mkMesh [(0, 0, 0), (1, 1, 1), (0, 1, 0)] none (some 0)], (0, 0, 0)⟩

/-- A node with two sub-meshes sharing one source material. -/
def twoMeshObj : Object3D :=
  ⟨[mkMesh [(0, 0, 0), (1, 0, 0), (0, 1, 0)] none (some 100),
    mkMesh [(0, 0, 1), (1, 0, 1), (0, 1, 1)] none (some 100)], (0, 0, 0)⟩

/-- A node whose single sub-mesh has an index buffer of length 4, not a
multiple of 3. -/
def indexFourObj : Object3D :=
  ⟨[mkMesh [(0, 0, 0), (1, 0, 0), (0, 1, 0), (1, 1, 0)] (some 4) (some 0)], (0, 0, 0)⟩

/-- A node whose sub-mesh counts are multiples of 3: one indexed mesh of
index length 6, one non-indexed mesh of 3 vertices. -/
def triangulatedObj : Object3D :=
  ⟨[mkMesh [(0, 0, 0), (1, 0, 0), (0, 1, 0), (1, 1, 0)] (some 6) none,
    mkMesh [(0, 0, 2), (1, 0, 2), (0, 1, 2)] none (some 1)], (0, 0, 0)⟩

/-- A node of extents 8 by 8 by 8. -/
def bigObj : Object3D :=
  ⟨[mkMesh [(0, 0, 0), (8, 8, 8)] none (some 0)], (0, 0, 0)⟩

/-! ## Helper lemmas -/

theorem assignFresh_filterMap (l : List Mesh) (i : ℕ) :
    (assignFresh i l).filterMap Mesh.material = List.range' i l.length := by
  induction l generalizing i with
  | nil => rfl
  | cons m ms ih =>
    simp only [assignFresh, List.filterMap_cons, List.length_cons, List.range'_succ, ih]

theorem materialCountOf_applyTextureMaterial (o : Object3D) :
    materialCountOf (applyTextureMaterial o) = o.meshes.length := by
  show ((assignFresh 0 o.meshes).filterMap Mesh.material).dedup.length = _
  rw [assignFresh_filterMap, List.Nodup.dedup (List.nodup_range' 0 o.meshes.length),
    List.length_range']

theorem assignFresh_points (i : ℕ) (l : List Mesh) :
    (assignFresh i l).map (fun m => m.geometry.position.getD []) =
      l.map (fun m => m.geometry.position.getD []) := by
  induction l generalizing i with
  | nil => rfl
  | cons m ms ih => simp only [assignFresh, List.map_cons, ih]

theorem boxOfObject_applyTextureMaterial (o : Object3D) :
    boxOfObject (applyTextureMaterial o) = boxOfObject o := by
  show (setFromPoints (((assignFresh 0 o.meshes).map fun m =>
      m.geometry.position.getD []).flatten)).map
      (fun b => Box3.mk (vadd b.min o.position) (vadd b.max o.position)) = boxOfObject o
  rw [assignFresh_points]
  rfl

theorem sizeOfObject_applyTextureMaterial (o : Object3D) :
    sizeOfObject (applyTextureMaterial o) = sizeOfObject o :=
  congrArg getSize (boxOfObject_applyTextureMaterial o)

theorem sizeOfObject_position (ms : List Mesh) (p q : Vec3) :
    sizeOfObject ⟨ms, p⟩ = sizeOfObject ⟨ms, q⟩ := by
  show getSize ((setFromPoints ((ms.map fun m => m.geometry.position.getD []).flatten)).map
      fun b => Box3.mk (vadd b.min p) (vadd b.max p)) =
    getSize ((setFromPoints ((ms.map fun m => m.geometry.position.getD []).flatten)).map
      fun b => Box3.mk (vadd b.min q) (vadd b.max q))
  cases h : setFromPoints ((ms.map fun m => m.geometry.position.getD []).flatten) with
  | none => rfl
  | some b =>
    show (vsub (vadd b.max p) (vadd b.min p) : Vec3) = vsub (vadd b.max q) (vadd b.min q)
    simp only [vsub, vadd, Prod.mk.injEq]
    refine ⟨by ring, by ring, by ring⟩

theorem foldl_expandBox_min_le_max (l : List Vec3) (b : Box3)
    (h1 : b.min.1 ≤ b.max.1) (h2 : b.min.2.1 ≤ b.max.2.1) (h3 : b.min.2.2 ≤ b.max.2.2) :
    (l.foldl expandBox b).min.1 ≤ (l.foldl expandBox b).max.1 ∧
      (l.foldl expandBox b).min.2.1 ≤ (l.foldl expandBox b).max.2.1 ∧
      (l.foldl expandBox b).min.2.2 ≤ (l.foldl expandBox b).max.2.2 := by
  induction l generalizing b with
  | nil => exact ⟨h1, h2, h3⟩
  | cons q qs ih =>
    exact ih (expandBox b q)
      (le_trans (min_le_left _ _) (le_trans h1 (le_max_left _ _)))
      (le_trans (min_le_left _ _) (le_trans h2 (le_max_left _ _)))
      (le_trans (min_le_left _ _) (le_trans h3 (le_max_left _ _)))

theorem setFromPoints_min_le_max (l : List Vec3) (b : Box3) (h : setFromPoints l = some b) :
    b.min.1 ≤ b.max.1 ∧ b.min.2.1 ≤ b.max.2.1 ∧ b.min.2.2 ≤ b.max.2.2 := by
  cases l with
  | nil => exact Option.noConfusion h
  | cons p ps =>
    have hb : ps.foldl expandBox ⟨p, p⟩ = b := Option.some.inj h
    rw [← hb]
    exact foldl_expandBox_min_le_max ps ⟨p, p⟩ le_rfl le_rfl le_rfl

theorem getSize_shift_nonneg (ob : Option Box3) (p : Vec3)
    (h : ∀ b, ob = some b →
      b.min.1 ≤ b.max.1 ∧ b.min.2.1 ≤ b.max.2.1 ∧ b.min.2.2 ≤ b.max.2.2) :
    0 ≤ (getSize (ob.map fun b => Box3.mk (vadd b.min p) (vadd b.max p))).1 ∧
      0 ≤ (getSize (ob.map fun b => Box3.mk (vadd b.min p) (vadd b.max p))).2.1 ∧
      0 ≤ (getSize (ob.map fun b => Box3.mk (vadd b.min p) (vadd b.max p))).2.2 := by
  cases ob with
  | none => exact ⟨le_rfl, le_rfl, le_rfl⟩
  | some b =>
    obtain ⟨h1, h2, h3⟩ := h b rfl
    refine ⟨?_, ?_, ?_⟩
    · show (0:ℚ) ≤ (b.max.1 + p.1) - (b.min.1 + p.1)
      linarith
    · show (0:ℚ) ≤ (b.max.2.1 + p.2.1) - (b.min.2.1 + p.2.1)
      linarith
    · show (0:ℚ) ≤ (b.max.2.2 + p.2.2) - (b.min.2.2 + p.2.2)
      linarith

theorem sizeOfObject_nonneg (o : Object3D) :
    0 ≤ (sizeOfObject o).1 ∧ 0 ≤ (sizeOfObject o).2.1 ∧ 0 ≤ (sizeOfObject o).2.2 := by
  refine getSize_shift_nonneg (setFromPoints (geometryPoints o)) o.position ?_
  intro b hb
  exact setFromPoints_min_le_max _ _ hb

theorem fovRad_half_pos : 0 < fovRad / 2 := by
  unfold fovRad
  positivity

theorem fovRad_half_lt_pi : fovRad / 2 < Real.pi := by
  unfold fovRad
  have h := Real.pi_pos
  linarith

theorem sin_fovRad_half_pos : 0 < Real.sin (fovRad / 2) :=
  Real.sin_pos_of_pos_of_lt_pi fovRad_half_pos fovRad_half_lt_pi

theorem cameraDistance_eq (m : ℝ) (hm : 0 ≤ m) :
    cameraDistance m fovRad = m / Real.sin (fovRad / 2) * 2 := by
  unfold cameraDistance
  rw [abs_of_nonneg (div_nonneg hm sin_fovRad_half_pos.le)]

theorem faceContribution_nonneg (m : Mesh) : 0 ≤ faceContribution m := by
  rcases hi : m.geometry.index with _ | n
  · rcases hp : m.geometry.position with _ | ps
    · simp [faceContribution, hi, hp]
    · simp only [faceContribution, hi, hp]
      positivity
  · simp only [faceContribution, hi]
    positivity

theorem countFaces_nonneg (o : Object3D) : 0 ≤ countFaces o := by
  apply List.sum_nonneg
  intro x hx
  rw [List.mem_map] at hx
  obtain ⟨m, -, rfl⟩ := hx
  exact faceContribution_nonneg m

theorem faceContribution_eq_truncated (m : Mesh) (h : 3 ∣ faceBasis m) :
    faceContribution m = (faceContributionTruncated m : ℚ) := by
  rcases hi : m.geometry.index with _ | n
  · rcases hp : m.geometry.position with _ | ps
    · simp [faceContribution, faceContributionTruncated, hi, hp]
    · have h3 : 3 ∣ ps.length := by simpa [faceBasis, hi, hp] using h
      simp only [faceContribution, faceContributionTruncated, hi, hp]
      rw [@Nat.cast_div ℚ _ _ _ h3 (by norm_num)]
      norm_num
  · have h3 : 3 ∣ n := by simpa [faceBasis, hi] using h
    simp only [faceContribution, faceContributionTruncated, hi]
    rw [@Nat.cast_div ℚ _ _ _ h3 (by norm_num)]
    norm_num

theorem faces_sum_eq_truncated (l : List Mesh) (h : ∀ m ∈ l, 3 ∣ faceBasis m) :
    (l.map faceContribution).sum = (((l.map faceContributionTruncated).sum : ℕ) : ℚ) := by
  induction l with
  | nil => simp
  | cons m ms ih =>
    simp only [List.map_cons, List.sum_cons, Nat.cast_add]
    rw [faceContribution_eq_truncated m (h m (by simp)),
      ih (fun x hx => h x (by simp [hx]))]

/-! ## The claims -/

/-- Claim C1, as stated, is false: on the main texture-driven success path
the traversal gives each sub-mesh a fresh texture material, so the distinct
material count published in the metadata is the number of sub-meshes, not
1 — here 2 for a two-sub-mesh node whose source materials were one shared
reference. -/
theorem texture_material_count_cex :
    metaMaterials (runPipeline ⟨true, true, true⟩ twoMeshObj) = some 2 ∧ (2 : ℕ) ≠ 1 :=
  ⟨by decide, by decide⟩

/-- Claim C1, amended: after a successful texture-driven load on the main
path, materialCount equals the number of sub-meshes (each sub-mesh received
its own fresh texture material), so it is 1 exactly for single-sub-mesh
nodes; on the material-fallback path (texture loaded, material library
failed) materialCount is hardcoded to 1. -/
theorem texture_material_count (obj : Object3D) :
    metaMaterials (runPipeline ⟨true, true, true⟩ obj) = some obj.meshes.length ∧
    metaMaterials (runPipeline ⟨true, false, true⟩ obj) = some 1 := by
  constructor
  · show (some (materialCountOf (applyTextureMaterial
        { obj with position := vsub obj.position (getCenter (boxOfObject obj)) })) :
        Option ℕ) = some obj.meshes.length
    rw [materialCountOf_applyTextureMaterial]
  · rfl

/-- Claim C2, as stated, is false: when the texture load has failed, a
material-load failure terminates the run in a Failed state at once — the
geometry fetch, which would succeed, is never even started. -/
theorem mtl_failure_fallback_cex :
    loadStateOf (runPipeline ⟨false, false, true⟩ sampleObj) = .Failed mtlAndTextureErrorMsg ∧
    FetchEvent.startObj ∉ runTrace ⟨false, false, true⟩ ∧
    FetchEvent.doneMtl false ∈ runTrace ⟨false, false, true⟩ :=
  ⟨rfl, by decide, by decide⟩

/-- Claim C2, amended: provided the texture load succeeded, a material-load
failure falls back to a geometry-only load and, when the geometry load
succeeds, the run terminates Ready with materialCount 1; but when the
texture load failed, a material-load failure immediately terminates Failed
("Failed to load materials and texture.") without attempting the geometry
fetch. -/
theorem mtl_failure_fallback (obj : Object3D) :
    (∃ md, loadStateOf (runPipeline ⟨true, false, true⟩ obj) = .Ready md ∧ md.materials = 1) ∧
    loadStateOf (runPipeline ⟨false, false, true⟩ obj) = .Failed mtlAndTextureErrorMsg ∧
    FetchEvent.startObj ∉ runTrace ⟨false, false, true⟩ :=
  ⟨⟨_, rfl, rfl⟩, rfl, by decide⟩

/-- Claim C3, as stated, is false: the material and geometry fetches are
issued only from the texture loader's callbacks, so they are sequenced
after texture completion; moreover flipping only the texture outcome of a
material-failure run turns a Ready terminal state into a Failed one, so a
texture-load failure can cause the pipeline to fail even though the
geometry resource loads successfully whenever fetched. -/
theorem texture_independence_cex :
    loadStateOf (runPipeline ⟨true, false, true⟩ sampleObj) ≠
      loadStateOf (runPipeline ⟨false, false, true⟩ sampleObj) ∧
    loadStateOf (runPipeline ⟨false, false, true⟩ sampleObj) = .Failed mtlAndTextureErrorMsg ∧
    runTrace ⟨false, true, true⟩ =
      [.startTexture, .doneTexture false, .startMtl, .doneMtl true, .startObj, .doneObj true] :=
  ⟨by decide, rfl, by decide⟩

/-- Claim C3, amended: a texture failure alone (material and geometry both
loadable) still ends Ready, but the material fetch starts only after the
texture fetch completes in every run, and when the material load also
fails a texture failure changes the outcome to Failed with no geometry
attempt. -/
theorem texture_failure_behavior (obj : Object3D) :
    (∃ md, loadStateOf (runPipeline ⟨false, true, true⟩ obj) = .Ready md) ∧
    (∀ r : RunOutcome, (runTrace r).take 4 =
      [.startTexture, .doneTexture r.textureOk, .startMtl, .doneMtl r.mtlOk]) ∧
    loadStateOf (runPipeline ⟨false, false, true⟩ obj) = .Failed mtlAndTextureErrorMsg :=
  ⟨⟨_, rfl⟩, fun _ => rfl, rfl⟩

/-- Claim C4, as stated, is false: `countFaces` divides by 3 with
JavaScript's exact division, so a sub-mesh whose index buffer has length 4
contributes 4/3, and the published face count is the non-integer 4/3 where
the claimed truncating count would be 1. -/
theorem face_count_truncation_cex :
    metaFaces (runPipeline ⟨true, true, true⟩ indexFourObj) = some ((4 : ℚ) / 3) ∧
    countFacesTruncated indexFourObj = 1 ∧ ((4 : ℚ) / 3) ≠ ((1 : ℕ) : ℚ) := by
  refine ⟨?_, by decide, by norm_num⟩
  show (some (countFaces (applyTextureMaterial
      { indexFourObj with
        position := vsub indexFourObj.position (getCenter (boxOfObject indexFourObj)) })) :
      Option ℚ) = some ((4 : ℚ) / 3)
  norm_num [countFaces, applyTextureMaterial, assignFresh, indexFourObj, mkMesh,
    faceContribution]

/-- Claim C4, amended: the face count is the sum over sub-meshes of the
exact (untruncated) division by 3 of the index-buffer length (else the
vertex-position count); it is always non-negative, and it coincides with
the truncating integer count exactly when every sub-mesh's relevant count
is a multiple of 3. -/
theorem face_count_exact (o : Object3D) (h : ∀ m ∈ o.meshes, 3 ∣ faceBasis m) :
    0 ≤ countFaces o ∧ countFaces o = ((countFacesTruncated o : ℕ) : ℚ) :=
  ⟨countFaces_nonneg o, faces_sum_eq_truncated o.meshes h⟩

/-- Witness for the amended C4 at a fully triangulated node. -/
theorem face_count_exact_witness :
    (∀ m ∈ triangulatedObj.meshes, 3 ∣ faceBasis m) ∧
    (0 ≤ countFaces triangulatedObj ∧
      countFaces triangulatedObj = ((countFacesTruncated triangulatedObj : ℕ) : ℚ)) :=
  ⟨by decide, face_count_exact triangulatedObj (by decide)⟩

/-- Claim C5, as stated, is false: the primary-path geometry failure
message is "Failed to load 3D model. Please check if model files exist in
the correct location.", not "model load error", and none of the claimed
three messages is a message the component ever stores. -/
theorem failure_message_cex :
    (runPipeline ⟨true, true, false⟩ sampleObj).error = some objLoadErrorMsg ∧
    objLoadErrorMsg ≠ "model load error" ∧
    "model load error" ∉ failureMessages ∧
    "failed to load model with or without materials" ∉ failureMessages ∧
    "initialization error" ∉ failureMessages :=
  ⟨rfl, by decide, by decide, by decide, by decide⟩

/-- Claim C5, amended: a primary-path geometry failure terminates Failed
with exactly "Failed to load 3D model. Please check if model files exist
in the correct location.", and every error message the pipeline or the
init catch block stores is drawn from the fixed five-message set
`failureMessages`. -/
theorem failure_messages_fixed (r : RunOutcome) (obj : Object3D) (s : CoreState) (m : String)
    (h : (runPipeline r obj).error = some m) :
    m ∈ failureMessages ∧
    (runPipeline ⟨true, true, false⟩ obj).error = some objLoadErrorMsg ∧
    (initCatch s).error = some initErrorMsg := by
  refine ⟨?_, rfl, rfl⟩
  obtain ⟨t, mt, ob⟩ := r
  cases t <;> cases mt <;> cases ob <;>
    first
      | exact Option.noConfusion h
      | (obtain rfl := Option.some.inj h; decide)

/-- Witness for the amended C5 at the primary-path geometry failure. -/
theorem failure_messages_fixed_witness :
    objLoadErrorMsg ∈ failureMessages ∧
    (runPipeline ⟨true, true, false⟩ sampleObj).error = some objLoadErrorMsg ∧
    (initCatch startState).error = some initErrorMsg :=
  failure_messages_fixed ⟨true, true, false⟩ sampleObj startState objLoadErrorMsg rfl

/-- Claim C6, as stated, is false: only the main success path runs the
auto-framing block.  In a degraded run where the material load failed but
geometry loaded, the camera is left exactly as `init` created it, and at
extents 8 by 8 by 8 that pose (y = 2) differs from the claimed framing
pose (y = maxDim / 2 = 4). -/
theorem camera_framing_cex :
    cameraAfter ⟨true, false, true⟩ bigObj = initialCamera ∧
    ¬ framesPerClaim (cameraAfter ⟨true, false, true⟩ bigObj) (sizeOfObject bigObj) := by
  refine ⟨rfl, ?_⟩
  intro hcl
  have hs : sizeOfObject bigObj = (8, 8, 8) := by
    simp [sizeOfObject, boxOfObject, geometryPoints, bigObj, mkMesh, setFromPoints,
      expandBox, vmin, vmax, vadd, vsub, getSize, min_def, max_def]
  have hp := hcl.1
  rw [hs] at hp
  have h2 := congrArg (fun v : ℝ × ℝ × ℝ => v.2.1) hp
  simp only [show cameraAfter ⟨true, false, true⟩ bigObj = initialCamera from rfl,
    initialCamera] at h2
  norm_num [max_self] at h2

/-- Claim C6, amended: on the full-success path (texture, material and
geometry all loaded) completion sets the claimed camera pose — position
(0, maxDim / 2, (maxDim / sin(fov / 2)) * 2) with the field of view in
radians, look-at (0, 0, 0), near 0.1, far 1000, projection updated; on
every degraded successful run the camera stays at its initial pose. -/
theorem camera_framing_success_only (obj : Object3D) :
    framesPerClaim (cameraAfter ⟨true, true, true⟩ obj) (sizeOfObject obj) ∧
    cameraAfter ⟨true, false, true⟩ obj = initialCamera ∧
    cameraAfter ⟨false, true, true⟩ obj = initialCamera := by
  refine ⟨?_, rfl, rfl⟩
  obtain ⟨h1, -, -⟩ := sizeOfObject_nonneg obj
  have hc : (0 : ℝ) ≤ ((max (sizeOfObject obj).1
      (max (sizeOfObject obj).2.1 (sizeOfObject obj).2.2) : ℚ) : ℝ) := by
    rw [Rat.cast_nonneg]
    exact le_trans h1 (le_max_left _ _)
  show framesPerClaim (frameCamera (sizeOfObject obj)) (sizeOfObject obj)
  refine ⟨?_, rfl, rfl, rfl, rfl⟩
  exact congrArg
    (fun z => ((0 : ℝ),
      ((max (sizeOfObject obj).1 (max (sizeOfObject obj).2.1 (sizeOfObject obj).2.2) : ℚ) : ℝ) / 2,
      z))
    (cameraDistance_eq _ hc)

/-- Claim C7: every successful load computes the bounding box once, before
the centering translation, and that one snapshot yields the centering
offset, the camera framing extents on the main path, and the reported
dimensions — which therefore equal the pre-translation extents (and, since
translation does not change extents, also the extents of the node as
placed in the scene). -/
theorem box_snapshot_consistency (obj : Object3D) :
    metaDims (runPipeline ⟨true, true, true⟩ obj) = some (getSize (boxOfObject obj)) ∧
    metaDims (runPipeline ⟨true, false, true⟩ obj) = some (getSize (boxOfObject obj)) ∧
    metaDims (runPipeline ⟨false, true, true⟩ obj) = some (getSize (boxOfObject obj)) ∧
    cameraAfter ⟨true, true, true⟩ obj = frameCamera (getSize (boxOfObject obj)) ∧
    (sceneModels (runPipeline ⟨true, true, true⟩ obj)).map Object3D.position =
      [vsub obj.position (getCenter (boxOfObject obj))] ∧
    (sceneModels (runPipeline ⟨true, true, true⟩ obj)).map sizeOfObject =
      [getSize (boxOfObject obj)] := by
  have h1 : sizeOfObject (applyTextureMaterial
      { obj with position := vsub obj.position (getCenter (boxOfObject obj)) }) =
      getSize (boxOfObject obj) := by
    rw [sizeOfObject_applyTextureMaterial]
    exact sizeOfObject_position obj.meshes _ obj.position
  exact ⟨rfl, rfl, rfl, rfl, rfl, congrArg (fun x => [x]) h1⟩

/-- Claim C8: the computed camera distance is strictly increasing in
maxDim for a fixed field of view in (0, π), and strictly decreasing in the
field of view over (0, π) for a fixed positive maxDim. -/
theorem camera_distance_monotone (m1 m2 f mm f1 f2 : ℝ)
    (hf0 : 0 < f) (hfpi : f < Real.pi) (h1 : 0 < m1) (h12 : m1 < m2)
    (hmm : 0 < mm) (hf10 : 0 < f1) (hff : f1 < f2) (hf2pi : f2 < Real.pi) :
    cameraDistance m1 f < cameraDistance m2 f ∧
    cameraDistance mm f2 < cameraDistance mm f1 := by
  have hpi := Real.pi_pos
  constructor
  · have hs : 0 < Real.sin (f / 2) :=
      Real.sin_pos_of_pos_of_lt_pi (by linarith) (by linarith)
    unfold cameraDistance
    rw [abs_of_nonneg (div_nonneg h1.le hs.le),
      abs_of_nonneg (div_nonneg (h1.trans h12).le hs.le)]
    have : m1 / Real.sin (f / 2) < m2 / Real.sin (f / 2) := by
      exact div_lt_div_of_pos_right h12 hs
    linarith
  · have hs1 : 0 < Real.sin (f1 / 2) :=
      Real.sin_pos_of_pos_of_lt_pi (by linarith) (by linarith)
    have hs2 : 0 < Real.sin (f2 / 2) :=
      Real.sin_pos_of_pos_of_lt_pi (by linarith) (by linarith)
    have hlt : Real.sin (f1 / 2) < Real.sin (f2 / 2) := by
      apply Real.strictMonoOn_sin (Set.mem_Icc.mpr ⟨by linarith, by linarith⟩)
        (Set.mem_Icc.mpr ⟨by linarith, by linarith⟩)
      linarith
    unfold cameraDistance
    rw [abs_of_nonneg (div_nonneg hmm.le hs2.le),
      abs_of_nonneg (div_nonneg hmm.le hs1.le)]
    have : mm / Real.sin (f2 / 2) < mm / Real.sin (f1 / 2) :=
      div_lt_div_of_pos_left hmm hs1 hlt
    linarith

/-- Witness for C8 at maxDim 1 vs 2 with fov π/2, and fov π/3 vs π/2 with
maxDim 1. -/
theorem camera_distance_monotone_witness :
    cameraDistance 1 (Real.pi / 2) < cameraDistance 2 (Real.pi / 2) ∧
    cameraDistance 1 (Real.pi / 2) < cameraDistance 1 (Real.pi / 3) :=
  camera_distance_monotone 1 2 (Real.pi / 2) 1 (Real.pi / 3) (Real.pi / 2)
    (half_pos Real.pi_pos) (half_lt_self Real.pi_pos) one_pos one_lt_two one_pos
    (div_pos Real.pi_pos three_pos)
    (div_lt_div_of_pos_left Real.pi_pos two_pos (by norm_num))
    (half_lt_self Real.pi_pos)

/-- Claim C9, as stated, is false: when both the material load and the
fallback geometry load fail the state is indeed Failed and no model was
added, but the scene is not only background/grid/axis helpers and lights —
it still contains the red test cube added during init. -/
theorem default_scene_cex :
    loadStateOf (runPipeline ⟨true, false, false⟩ sampleObj) = .Failed fallbackObjErrorMsg ∧
    SceneItem.testCube ∈ (runPipeline ⟨true, false, false⟩ sampleObj).scene ∧
    defaultContentOnly (runPipeline ⟨true, false, false⟩ sampleObj).scene = false :=
  ⟨rfl, by decide, by decide⟩

/-- Claim C9, amended: when the material load and the (fallback) geometry
load both fail, the terminal LoadState is Failed and the scene is exactly
what init created — grid/axis helpers, the three lights and the test cube —
with no model node added by the pipeline. -/
theorem both_failures_state (t : Bool) (obj : Object3D) :
    loadStateOf (runPipeline ⟨t, false, false⟩ obj) =
      .Failed (if t then fallbackObjErrorMsg else mtlAndTextureErrorMsg) ∧
    (runPipeline ⟨t, false, false⟩ obj).scene = initScene ∧
    sceneModels (runPipeline ⟨t, false, false⟩ obj) = [] := by
  cases t <;> exact ⟨rfl, rfl, rfl⟩

/-- Claim C10: every terminal callback of the pipeline — success of the
final geometry stage in any branch, any terminal load error, and the init
catch block — sets the loading flag false, so no completed run is left in
the Loading state's flag. -/
theorem terminal_loading_cleared (r : RunOutcome) (obj : Object3D) (s : CoreState) :
    (runPipeline r obj).loading = false ∧ (initCatch s).loading = false := by
  obtain ⟨t, mt, ob⟩ := r
  cases t <;> cases mt <;> cases ob <;> exact ⟨rfl, rfl⟩

end ModelViewer
